import Mathlib

/-!
Verification of the Crowdsignal Forms poll block editor logic
(`src/client/blocks/poll/edit.js` and `src/client/blocks/poll/attributes.js`),
shallowly embedded in Lean 4.

JavaScript values relevant to the modelled logic (attribute fields that hold
`null`, strings, or numbers) are embedded as `JsVal`, with JS truthiness made
explicit.  Stateful React pieces (the `useEffect` ID-assignment pass, the
`useState` edit-lock flag) are embedded as explicit state-passing functions.
The `uuid` library's `v4` generator is an external dependency; it is modelled
as a deterministic supply of non-empty strings indexed by a counter that the
pass threads through its calls.
-/

namespace CrowdsignalForms

/-- A JavaScript value as stored in the poll block's attributes: `null`,
a string, or a number. -/
inductive JsVal where
  | jnull : JsVal
  | jstr : String → JsVal
  | jnum : Int → JsVal
  deriving DecidableEq, Repr

/-- JS truthiness for the embedded values: `null` is falsy, a string is truthy
iff non-empty, a number is truthy iff non-zero. -/
def JsVal.truthy : JsVal → Bool
  | .jnull => false
  | .jstr s => !(s == "")
  | .jnum n => !(n == 0)

/-- The `typeof`-style type tag of an embedded JS value, for comparison with
the declared attribute schema types. -/
def JsVal.jsTypeOf : JsVal → String
  | .jnull => "null"
  | .jstr _ => "string"
  | .jnum _ => "number"

/-- One answer in the poll attributes: `{ answerId, text }`
(schema: `attributes.js` lines 41-53). -/
structure Answer where
  answerId : JsVal
  text : String
  deriving DecidableEq, Repr

/-- The poll block attributes read or written by the modelled logic of
`edit.js`.  The purely presentational fields of the schema (colors, borders,
fonts, labels, alignment, confirmation-message configuration) are carried by
the same document object but never read by the logic under verification, so
they are not repeated here; the full declared schema is embedded separately
as `attributesSchema`.  `closedAfterDateTime` is held abstractly as an
optional timestamp. -/
structure PollAttributes where
  pollId : JsVal
  answers : List Answer
  pollStatus : String
  closedPollState : String
  closedAfterDateTime : Option Int
  note : String
  deriving DecidableEq, Repr

/-- The declared attribute schema of `attributes.js`: field name paired with
the declared `type`.  This is the compatibility contract of spec §6. -/
def attributesSchema : List (String × String) :=
  [ ("pollId", "number"),
    ("isMultipleChoice", "boolean"),
    ("title", "string"),
    ("question", "string"),
    ("note", "string"),
    ("answers", "array"),
    ("submitButtonLabel", "string"),
    ("submitButtonTextColor", "string"),
    ("submitButtonBackgroundColor", "string"),
    ("confirmMessageType", "string"),
    ("customConfirmMessage", "string"),
    ("redirectAddress", "string"),
    ("textColor", "string"),
    ("backgroundColor", "string"),
    ("borderColor", "string"),
    ("borderWidth", "number"),
    ("borderRadius", "number"),
    ("hasBoxShadow", "boolean"),
    ("fontFamily", "string"),
    ("hasOneResponsePerComputer", "boolean"),
    ("randomizeAnswers", "boolean"),
    ("blockAlignment", "string"),
    ("pollStatus", "string"),
    ("closedPollState", "string"),
    ("closedAfterDateTime", "string") ]

/-- The declared `type` of the `answerId` property of an answer item
(`attributes.js` lines 44-47). -/
def answerIdSchemaType : String := "number"

/-- The declared `type` of a named top-level attribute. -/
def schemaTypeOf (field : String) : Option String :=
  (attributesSchema.find? (fun p => p.1 == field)).map Prod.snd

/-- Whether an embedded JS value conforms to a declared schema type tag
(`null` is every field's permitted default). -/
def conformsToSchemaType (v : JsVal) (t : String) : Bool :=
  v == JsVal.jnull || v.jsTypeOf == t

/-- The default attribute state of `attributes.js`: `pollId` defaults to
`null` and `answers` to three empty objects, whose item defaults are
`answerId: null` and `text: ""`. -/
def defaultPollAttributes : PollAttributes :=
  { pollId := JsVal.jnull,
    answers := [⟨JsVal.jnull, ""⟩, ⟨JsVal.jnull, ""⟩, ⟨JsVal.jnull, ""⟩],
    pollStatus := "open",
    closedPollState := "show-results",
    closedAfterDateTime := none,
    note := "" }

/-- Model of the external `uuid` library's `v4` generator (`edit.js` line 40):
a supply of distinct, non-empty identifier strings indexed by a counter. -/
def uuidv4 (k : Nat) : String := "uuid-" ++ Nat.repr k

/-- Guard of the answer-mapping branch of `withPollAndAnswerIds`
(`edit.js` line 55): `! a.answerId && a.text`. -/
def needsAnswerId (a : Answer) : Bool :=
  !a.answerId.truthy && !(a.text == "")

/-- The `map` over `attributes.answers` inside `withPollAndAnswerIds`
(`edit.js` lines 56-62): an answer that already has a truthy `answerId`, or
whose `text` is falsy, is returned unchanged; otherwise it receives a fresh
identifier.  `k` is the uuid-supply counter, threaded left to right in call
order. -/
def assignAnswerIds (k : Nat) : List Answer → List Answer × Nat
  | [] => ([], k)
  | a :: rest =>
    if a.answerId.truthy || a.text == "" then
      let p := assignAnswerIds k rest
      (a :: p.1, p.2)
    else
      let p := assignAnswerIds (k + 1) rest
      ({ a with answerId := JsVal.jstr (uuidv4 k) } :: p.1, p.2)

/-- One evaluation pass of the `useEffect` body of `withPollAndAnswerIds`
(`edit.js` lines 50-66): if `attributes.pollId` is falsy, set it to a fresh
uuid; independently, if some answer lacks an id but has text, map the answer
list assigning fresh ids.  Returns the merged attribute state (the host's
`setAttributes` merges partial patches), the advanced uuid counter, and
whether any `setAttributes` call was made. -/
def idAssignmentPass (k : Nat) (attrs : PollAttributes) :
    PollAttributes × Nat × Bool :=
  let pollStep :=
    if attrs.pollId.truthy then (attrs.pollId, k, false)
    else (JsVal.jstr (uuidv4 k), k + 1, true)
  if attrs.answers.any needsAnswerId then
    let p := assignAnswerIds pollStep.2.1 attrs.answers
    ({ attrs with pollId := pollStep.1, answers := p.1 }, p.2, true)
  else
    ({ attrs with pollId := pollStep.1 }, pollStep.2.1, pollStep.2.2)

theorem uuidv4_ne_empty (k : Nat) : uuidv4 k ≠ "" := by
  intro h
  have hlen := congrArg String.length h
  simp [uuidv4, String.length_append] at hlen
  exact absurd hlen.1 (by decide)

theorem truthy_uuid (k : Nat) : (JsVal.jstr (uuidv4 k)).truthy = true := by
  simp [JsVal.truthy, uuidv4_ne_empty k]

/-- After the answer-mapping step, no answer still needs an id. -/
theorem assignAnswerIds_resolved (k : Nat) (xs : List Answer) :
    (assignAnswerIds k xs).1.any needsAnswerId = false := by
  induction xs generalizing k with
  | nil => simp [assignAnswerIds]
  | cons a rest ih =>
    by_cases h : a.answerId.truthy = true ∨ a.text = ""
    · have hguard : (a.answerId.truthy || a.text == "") = true := by
        rcases h with h | h <;> simp [h]
      have hneed : needsAnswerId a = false := by
        rcases h with h | h <;> simp [needsAnswerId, h]
      simp [assignAnswerIds, hguard, hneed, ih]
    · push_neg at h
      have hguard : (a.answerId.truthy || a.text == "") = false := by
        simp [h.1, h.2]
      have hneed :
          needsAnswerId { a with answerId := JsVal.jstr (uuidv4 k) } = false := by
        simp [needsAnswerId, truthy_uuid]
      simp [assignAnswerIds, hguard, hneed, ih]

/-- Modelled from the spec: the `ClosedPollState` two-valued enum is declared
in `./constants`, which is absent from src/.  Spec §3/§4.2 name the two
behaviors "show results" and "hidden"; only the distinctness of the two
values is relied upon. -/
def ClosedPollState.SHOW_RESULTS : String := "show-results"

/-- Modelled from the spec: the second value of the `ClosedPollState` enum
(see `ClosedPollState.SHOW_RESULTS`). -/
def ClosedPollState.HIDDEN : String := "hidden"

/-- Modelled from the spec: `isPollClosed` is imported from `./util`, which is
absent from src/.  Spec §4.2: true if the status is explicitly closed, or a
closed-after timestamp is set and is not in the future (comparison against
the current time).  Timestamps are abstracted as integers. -/
def isPollClosed (pollStatus : String) (closedAfterDateTime : Option Int)
    (now : Int) : Bool :=
  pollStatus == "closed" ||
    match closedAfterDateTime with
    | some t => decide (t ≤ now)
    | none => false

/-- The derived `isClosed` flag of `edit.js` lines 99-102, computed from the
attribute state. -/
def isClosedOf (attrs : PollAttributes) (now : Int) : Bool :=
  isPollClosed attrs.pollStatus attrs.closedAfterDateTime now

/-- The derived `showNote` flag of `edit.js` line 103:
`attributes.note || ( isSelected && isPollEditable )`, boolean-ized as the
rendering guard uses it (JS truthiness of the note string). -/
def showNote (note : String) (isSelected isPollEditable : Bool) : Bool :=
  !(note == "") || (isSelected && isPollEditable)

/-- The derived `showResults` flag of `edit.js` lines 104-105:
`isClosed && ClosedPollState.SHOW_RESULTS === attributes.closedPollState`. -/
def showResults (isClosed : Bool) (closedPollState : String) : Bool :=
  isClosed && (ClosedPollState.SHOW_RESULTS == closedPollState)

/-- The derived `isHidden` flag of `edit.js` lines 106-107:
`isClosed && ClosedPollState.HIDDEN === attributes.closedPollState`. -/
def isHidden (isClosed : Bool) (closedPollState : String) : Bool :=
  isClosed && (ClosedPollState.HIDDEN == closedPollState)

/-- `showResults` computed from the full attribute state, as in `edit.js`. -/
def showResultsOf (attrs : PollAttributes) (now : Int) : Bool :=
  showResults (isClosedOf attrs now) attrs.closedPollState

/-- `isHidden` computed from the full attribute state, as in `edit.js`. -/
def isHiddenOf (attrs : PollAttributes) (now : Int) : Bool :=
  isHidden (isClosedOf attrs now) attrs.closedPollState

/-- The part of the document snapshot returned by
`wp.data.select( 'core/editor' ).getCurrentPost()` that `edit.js` reads:
the stored status string and the raw content string. -/
structure PostDetails where
  status : String
  content : String
  deriving DecidableEq, Repr

/-- Modelled from the spec: `pollIdExistsInPageContent` is imported from
`./util`, which is absent from src/.  Spec §4.3: a heuristic presence check,
a substring search for the identifier within the raw document content. -/
def pollIdExistsInPageContent (pollId content : String) : Bool :=
  decide (List.IsInfix pollId.data content.data)

/-- `wasBlockAddedBeforeLastPublish` of `edit.js` lines 111-113:
`'publish' === postDetails.status && pollIdExistsInPageContent(
attributes.pollId, postDetails.content )`.  The poll id is passed as the
string it holds at that point. -/
def wasBlockAddedBeforeLastPublish (postDetails : PostDetails)
    (pollId : String) : Bool :=
  postDetails.status == "publish" &&
    pollIdExistsInPageContent pollId postDetails.content

/-- The value of the `isPollEditable` state after the mount effect of
`edit.js` line 115 runs: `setIsPollEditable( ! wasBlockAddedBeforeLastPublish )`.
This is the state in which the block initializes. -/
def initialIsPollEditable (postDetails : PostDetails) (pollId : String) : Bool :=
  !wasBlockAddedBeforeLastPublish postDetails pollId

/-- One entry of the `answers` list of the external poll API snapshot
(spec §6): `{ client_id, id }` with a numeric server id. -/
structure ApiAnswer where
  client_id : String
  id : Int
  deriving DecidableEq, Repr

/-- The external poll API snapshot (spec §6):
`{ id, viewResultsUrl, answers: [{ client_id, id }, …] }`. -/
structure PollApiData where
  id : Int
  viewResultsUrl : String
  answers : List ApiAnswer
  deriving DecidableEq, Repr

/-- The `viewResultsUrl` binding of `edit.js` lines 85-87:
`pollDataFromApi ? pollDataFromApi.viewResultsUrl : ''`. -/
def viewResultsUrl (pollDataFromApi : Option PollApiData) : String :=
  match pollDataFromApi with
  | some d => d.viewResultsUrl
  | none => ""

/-- The `pollIdFromApi` binding of `edit.js` line 88:
`pollDataFromApi ? pollDataFromApi.id : null`. -/
def pollIdFromApi (pollDataFromApi : Option PollApiData) : Option Int :=
  match pollDataFromApi with
  | some d => some d.id
  | none => none

/-- Lookup in the `answerIdMap` object built by `edit.js` lines 89-94: the
loop assigns `answerIdMap[ answer.client_id ] = answer.id` in list order, so
a later entry with the same `client_id` overwrites an earlier one.  The
recursion mirrors that: an assignment made by the tail wins over the head. -/
def buildAnswerIdMap : List ApiAnswer → String → Option Int
  | [], _ => none
  | a :: rest, key =>
    match buildAnswerIdMap rest key with
    | some v => some v
    | none => if a.client_id == key then some a.id else none

/-- The `answerIdMap` of `edit.js` lines 89-94 as a lookup function: empty
when `pollDataFromApi` is null or absent. -/
def answerIdMap (pollDataFromApi : Option PollApiData) : String → Option Int :=
  match pollDataFromApi with
  | some d => buildAnswerIdMap d.answers
  | none => fun _ => none

/-- Modelled from the spec: `isAnswerEmpty` is imported from
`components/poll/util`, which is absent from src/.  Spec §3 describes answers
as "created empty (default: three blank answers)" with text entered by the
user: an answer is empty when its text is blank. -/
def isAnswerEmpty (a : Answer) : Bool :=
  a.text == ""

/-- A local answer as handed to the results view, carrying the optional
server-assigned id correlated through the answer-id map. -/
structure ResultsAnswer where
  answerId : JsVal
  text : String
  answerIdFromApi : Option Int
  deriving DecidableEq, Repr

/-- Modelled from the spec: `addApiAnswerIds` is imported from
`components/poll/util`, which is absent from src/.  Spec §3/§8: the map
correlates local answers with server results by client id — a local answer
whose `answerId` has an entry in the map receives that numeric server id, a
local answer with no matching `client_id` receives no mapped id. -/
def addApiAnswerIds (answers : List Answer) (m : String → Option Int) :
    List ResultsAnswer :=
  answers.map fun a =>
    { answerId := a.answerId,
      text := a.text,
      answerIdFromApi :=
        match a.answerId with
        | JsVal.jstr s => m s
        | _ => none }

/-- The answer list passed to `PollResults` in `edit.js` lines 203-209:
`addApiAnswerIds( filter( attributes.answers, ( answer ) =>
! isAnswerEmpty( answer ) ), answerIdMap )`. -/
def resultsAnswers (attrs : PollAttributes)
    (pollDataFromApi : Option PollApiData) : List ResultsAnswer :=
  addApiAnswerIds (attrs.answers.filter fun a => !isAnswerEmpty a)
    (answerIdMap pollDataFromApi)

/-- When the stored poll id is falsy, the pass assigns the next uuid. -/
theorem idAssignmentPass_fst_pollId (attrs : PollAttributes) (k : Nat)
    (h : attrs.pollId.truthy = false) :
    ((idAssignmentPass k attrs).1).pollId = JsVal.jstr (uuidv4 k) := by
  by_cases hg : attrs.answers.any needsAnswerId = true <;>
    simp [idAssignmentPass, h, hg]

/-- After one pass, no answer still needs an id. -/
theorem idAssignmentPass_fst_resolved (attrs : PollAttributes) (k : Nat) :
    ((idAssignmentPass k attrs).1).answers.any needsAnswerId = false := by
  by_cases hg : attrs.answers.any needsAnswerId = true <;>
    simp [idAssignmentPass, hg, assignAnswerIds_resolved]

/-- Once the poll id is truthy and every answer is resolved, the pass makes
no attribute update and returns the state unchanged. -/
theorem idAssignmentPass_noop (attrs : PollAttributes) (k : Nat)
    (h1 : attrs.pollId.truthy = true)
    (h2 : attrs.answers.any needsAnswerId = false) :
    idAssignmentPass k attrs = (attrs, k, false) := by
  simp [idAssignmentPass, h1, h2]

/-- C1: starting from any attribute state with `pollId` unset (falsy), one
evaluation pass of `withPollAndAnswerIds` sets `pollId` to a non-empty
identifier string, and running the pass again on the resulting state makes
no further attribute update: it returns the same state, the same uuid
counter, and reports no update. -/
theorem C1_idAssignmentPass_sets_pollId_and_is_idempotent
    (attrs : PollAttributes) (k : Nat) (h : attrs.pollId.truthy = false) :
    (∃ s, ((idAssignmentPass k attrs).1).pollId = JsVal.jstr s ∧ s ≠ "") ∧
    idAssignmentPass (idAssignmentPass k attrs).2.1 (idAssignmentPass k attrs).1 =
      ((idAssignmentPass k attrs).1, (idAssignmentPass k attrs).2.1, false) := by
  have hp := idAssignmentPass_fst_pollId attrs k h
  refine ⟨⟨uuidv4 k, hp, uuidv4_ne_empty k⟩, ?_⟩
  apply idAssignmentPass_noop
  · rw [hp]; exact truthy_uuid k
  · exact idAssignmentPass_fst_resolved attrs k

/-- C1 witness: the default attribute state has a falsy `pollId`, and the
theorem applies to it. -/
theorem C1_witness :
    (∃ s, ((idAssignmentPass 0 defaultPollAttributes).1).pollId = JsVal.jstr s ∧
        s ≠ "") ∧
    idAssignmentPass (idAssignmentPass 0 defaultPollAttributes).2.1
        (idAssignmentPass 0 defaultPollAttributes).1 =
      ((idAssignmentPass 0 defaultPollAttributes).1,
        (idAssignmentPass 0 defaultPollAttributes).2.1, false) :=
  C1_idAssignmentPass_sets_pollId_and_is_idempotent defaultPollAttributes 0
    (by decide)

/-- The per-answer effect of the mapping step: a needy answer gets a fresh
non-empty string id with its text preserved, an id-less empty-text answer
stays id-less, and an answer that already had a truthy id is unchanged. -/
theorem assignAnswerIds_forall₂ (k : Nat) (xs : List Answer) :
    List.Forall₂
      (fun a a' =>
        ((a.text ≠ "" ∧ a.answerId.truthy = false) →
          (∃ s, a'.answerId = JsVal.jstr s ∧ s ≠ "") ∧ a'.text = a.text) ∧
        ((a.text = "" ∧ a.answerId.truthy = false) → a'.answerId.truthy = false) ∧
        (a.answerId.truthy = true → a' = a))
      xs (assignAnswerIds k xs).1 := by
  induction xs generalizing k with
  | nil => simp [assignAnswerIds]
  | cons a rest ih =>
    by_cases hg : (a.answerId.truthy || a.text == "") = true
    · have hrest := ih k
      simp only [assignAnswerIds, hg, if_pos]
      refine List.Forall₂.cons ⟨?_, ?_, ?_⟩ hrest
      · rintro ⟨ht, hid⟩
        rcases Bool.or_eq_true_iff.mp hg with h | h
        · exact absurd h (by simp [hid])
        · exact absurd (by simpa using h) ht
      · rintro ⟨-, hid⟩; exact hid
      · intro; rfl
    · have hid : a.answerId.truthy = false := by
        rcases Bool.or_eq_true_iff.not.mp hg with h
        exact Bool.eq_false_iff.mpr fun hc => h (Or.inl hc)
      have ht : a.text ≠ "" := by
        intro hc
        exact hg (Bool.or_eq_true_iff.mpr (Or.inr (by simp [hc])))
      have hrest := ih (k + 1)
      simp only [assignAnswerIds, hg, if_neg, Bool.not_eq_true]
      refine List.Forall₂.cons ⟨?_, ?_, ?_⟩ hrest
      · intro; exact ⟨⟨uuidv4 k, rfl, uuidv4_ne_empty k⟩, rfl⟩
      · rintro ⟨hc, -⟩; exact absurd hc ht
      · intro hc; exact absurd hc (by simp [hid])

/-- When no answer needs an id, every answer trivially satisfies the
per-answer contract against itself. -/
theorem forall₂_refl_of_no_needy (xs : List Answer)
    (hno : xs.any needsAnswerId = false) :
    List.Forall₂
      (fun a a' =>
        ((a.text ≠ "" ∧ a.answerId.truthy = false) →
          (∃ s, a'.answerId = JsVal.jstr s ∧ s ≠ "") ∧ a'.text = a.text) ∧
        ((a.text = "" ∧ a.answerId.truthy = false) → a'.answerId.truthy = false) ∧
        (a.answerId.truthy = true → a' = a))
      xs xs := by
  induction xs with
  | nil => exact List.Forall₂.nil
  | cons a rest ih =>
    rw [List.any_cons] at hno
    have hhead : needsAnswerId a = false := by
      cases hA : needsAnswerId a
      · rfl
      · rw [hA] at hno; simp at hno
    have hrest : rest.any needsAnswerId = false := by
      cases hA : rest.any needsAnswerId
      · rfl
      · rw [hA] at hno; simp at hno
    refine List.Forall₂.cons ⟨?_, ?_, ?_⟩ (ih hrest)
    · rintro ⟨ht, hid⟩
      have : (a.text == "") = true := by
        simpa [needsAnswerId, hid] using hhead
      exact absurd (by simpa using this) ht
    · rintro ⟨-, hid⟩; exact hid
    · intro; rfl

/-- C2: after one evaluation pass of `withPollAndAnswerIds`, pointwise over
the ordered answer list: an answer that had non-empty text and no (falsy)
`answerId` now carries a non-empty string `answerId` with its text preserved;
an answer with empty text and no `answerId` still has no `answerId`; and an
answer that already had a (truthy) `answerId` is returned unchanged. -/
theorem C2_idAssignmentPass_answers_pointwise (attrs : PollAttributes) (k : Nat) :
    List.Forall₂
      (fun a a' =>
        ((a.text ≠ "" ∧ a.answerId.truthy = false) →
          (∃ s, a'.answerId = JsVal.jstr s ∧ s ≠ "") ∧ a'.text = a.text) ∧
        ((a.text = "" ∧ a.answerId.truthy = false) → a'.answerId.truthy = false) ∧
        (a.answerId.truthy = true → a' = a))
      attrs.answers ((idAssignmentPass k attrs).1).answers := by
  by_cases hg : attrs.answers.any needsAnswerId = true
  · by_cases hp : attrs.pollId.truthy = true
    · simpa [idAssignmentPass, hg, hp] using
        assignAnswerIds_forall₂ k attrs.answers
    · simpa [idAssignmentPass, hg, hp] using
        assignAnswerIds_forall₂ (k + 1) attrs.answers
  · have hno : attrs.answers.any needsAnswerId = false := eq_false_of_ne_true hg
    simpa [idAssignmentPass, hno] using forall₂_refl_of_no_needy attrs.answers hno

/-- C2 witness: the pointwise contract evaluated on a concrete three-answer
state covering all three cases. -/
theorem C2_witness :
    List.Forall₂
      (fun a a' =>
        ((a.text ≠ "" ∧ a.answerId.truthy = false) →
          (∃ s, a'.answerId = JsVal.jstr s ∧ s ≠ "") ∧ a'.text = a.text) ∧
        ((a.text = "" ∧ a.answerId.truthy = false) → a'.answerId.truthy = false) ∧
        (a.answerId.truthy = true → a' = a))
      ({ defaultPollAttributes with
          answers := [⟨JsVal.jnull, "Yes"⟩, ⟨JsVal.jnull, ""⟩,
            ⟨JsVal.jstr "kept", "No"⟩] } : PollAttributes).answers
      ((idAssignmentPass 0
          { defaultPollAttributes with
            answers := [⟨JsVal.jnull, "Yes"⟩, ⟨JsVal.jnull, ""⟩,
              ⟨JsVal.jstr "kept", "No"⟩] }).1).answers :=
  C2_idAssignmentPass_answers_pointwise _ 0

/-- C3: `isClosed` is true exactly when the status is explicitly closed, or a
closed-after timestamp is set and is not later than the current time; with
the four concrete cases of spec §8: open/no timestamp is not closed, closed
status is closed, open with a past timestamp is closed, open with a future
timestamp is not closed. -/
theorem C3_isPollClosed_characterization (status : String) (c : Option Int)
    (now t : Int) :
    (isPollClosed status c now = true ↔
      status = "closed" ∨ ∃ u, c = some u ∧ u ≤ now) ∧
    isPollClosed "open" none now = false ∧
    isPollClosed "closed" none now = true ∧
    (t ≤ now → isPollClosed "open" (some t) now = true) ∧
    (now < t → isPollClosed "open" (some t) now = false) := by
  refine ⟨?_, rfl, rfl, ?_, ?_⟩
  · cases c with
    | none => simp [isPollClosed]
    | some u => simp [isPollClosed]
  · intro h
    simp [isPollClosed, h]
  · intro h
    have hn : ¬t ≤ now := not_le.mpr h
    simp [isPollClosed, hn]

/-- C3 witness: the past-timestamp and future-timestamp cases evaluated at
the current time 0. -/
theorem C3_witness :
    isPollClosed "open" (some (-1)) 0 = true ∧
    isPollClosed "open" (some 5) 0 = false :=
  ⟨(C3_isPollClosed_characterization "open" none 0 (-1)).2.2.2.1 (by decide),
    (C3_isPollClosed_characterization "open" none 0 5).2.2.2.2 (by decide)⟩

/-- C4: a block in a document whose stored status is the published status
(`'publish'`) and whose raw content textually contains the poll id string
initializes non-editable; in a document with status `'draft'` it initializes
editable regardless of the content. -/
theorem C4_edit_lock_initialization (pd : PostDetails) (pollId : String) :
    (pd.status = "publish" → pollIdExistsInPageContent pollId pd.content = true →
      initialIsPollEditable pd pollId = false) ∧
    (pd.status = "draft" → initialIsPollEditable pd pollId = true) := by
  constructor
  · intro h1 h2
    simp [initialIsPollEditable, wasBlockAddedBeforeLastPublish, h1, h2]
  · intro h1
    have hne : ("draft" == "publish") = false := by decide
    simp [initialIsPollEditable, wasBlockAddedBeforeLastPublish, h1, hne]

/-- C4 witness: a published document containing the id string locks the
block; a draft document with the same content leaves it editable. -/
theorem C4_witness :
    initialIsPollEditable ⟨"publish", "<p>poll uuid-7 here</p>"⟩ "uuid-7" = false ∧
    initialIsPollEditable ⟨"draft", "<p>poll uuid-7 here</p>"⟩ "uuid-7" = true :=
  ⟨(C4_edit_lock_initialization ⟨"publish", "<p>poll uuid-7 here</p>"⟩
      "uuid-7").1 rfl (by decide),
    (C4_edit_lock_initialization ⟨"draft", "<p>poll uuid-7 here</p>"⟩
      "uuid-7").2 rfl⟩

/-- C5: `showResults` is true iff `isClosed` is true and the closed-state
behavior attribute equals the show-results value; in particular it is never
true when `isClosed` is false. -/
theorem C5_showResults_characterization (attrs : PollAttributes) (now : Int) :
    (showResultsOf attrs now = true ↔
      isClosedOf attrs now = true ∧
        attrs.closedPollState = ClosedPollState.SHOW_RESULTS) ∧
    (isClosedOf attrs now = false → showResultsOf attrs now = false) := by
  constructor
  · simp only [showResultsOf, showResults, Bool.and_eq_true, beq_iff_eq]
    exact and_congr_right fun _ => eq_comm
  · intro h
    simp [showResultsOf, showResults, h]

/-- C5 witness: the default open poll shows no results. -/
theorem C5_witness : showResultsOf defaultPollAttributes 0 = false :=
  (C5_showResults_characterization defaultPollAttributes 0).2 (by decide)

/-- C6: when the closed-state behavior attribute holds one of the two enum
values, the independently computed `showResults` and `isHidden` flags are
never both true. -/
theorem C6_showResults_isHidden_exclusive (attrs : PollAttributes) (now : Int)
    (_h : attrs.closedPollState = ClosedPollState.SHOW_RESULTS ∨
      attrs.closedPollState = ClosedPollState.HIDDEN) :
    ¬(showResultsOf attrs now = true ∧ isHiddenOf attrs now = true) := by
  rintro ⟨h1, h2⟩
  simp [showResultsOf, showResults, Bool.and_eq_true, beq_iff_eq] at h1
  simp [isHiddenOf, isHidden, Bool.and_eq_true, beq_iff_eq] at h2
  have hcontra := h1.2.trans h2.2.symm
  simp [ClosedPollState.SHOW_RESULTS, ClosedPollState.HIDDEN] at hcontra

/-- C6 witness: the exclusivity at the default attribute state. -/
theorem C6_witness :
    ¬(showResultsOf defaultPollAttributes 0 = true ∧
        isHiddenOf defaultPollAttributes 0 = true) :=
  C6_showResults_isHidden_exclusive defaultPollAttributes 0 (Or.inl rfl)

/-- C9: while the external poll data is null or absent (fetch pending), the
component derives an empty results URL, a null numeric poll id, and an empty
client-to-server answer-id map; all three derivations are total functions,
so nothing is awaited and nothing fails. -/
theorem C9_fetch_pending_defaults :
    viewResultsUrl none = "" ∧ pollIdFromApi none = none ∧
    ∀ c : String, answerIdMap none c = none :=
  ⟨rfl, rfl, fun _ => rfl⟩

/-- C10: `showNote` is true exactly when the note attribute is non-empty or
the block is selected and the poll is editable; in particular a non-empty
note is shown even when the block is neither selected nor editable. -/
theorem C10_showNote_characterization (note : String) (sel ed : Bool) :
    (showNote note sel ed = true ↔
      note ≠ "" ∨ (sel = true ∧ ed = true)) ∧
    (note ≠ "" → showNote note false false = true) := by
  constructor
  · simp [showNote, Bool.or_eq_true, Bool.and_eq_true]
  · intro h
    simp [showNote, h]

/-- C10 witness: a non-empty note is shown with the block deselected and the
poll not editable. -/
theorem C10_witness : showNote "a note" false false = true :=
  (C10_showNote_characterization "a note" false false).2 (by decide)

/-- C7: the declared schema types versus the values the pass writes,
evaluated at the failing input `{ pollId: null, answers: [{ answerId: null,
text: "Yes" }] }`: the schema of `attributes.js` declares type `number` for
`pollId` and for each answer's `answerId`, but the pass assigns uuid string
values to both, which do not conform to the declared type. -/
theorem C7_schema_type_violation :
    schemaTypeOf "pollId" = some "number" ∧
    answerIdSchemaType = "number" ∧
    ((idAssignmentPass 0
        { defaultPollAttributes with
          answers := [⟨JsVal.jnull, "Yes"⟩] }).1).pollId.jsTypeOf = "string" ∧
    conformsToSchemaType
        ((idAssignmentPass 0
          { defaultPollAttributes with
            answers := [⟨JsVal.jnull, "Yes"⟩] }).1).pollId "number" = false ∧
    (((idAssignmentPass 0
        { defaultPollAttributes with
          answers := [⟨JsVal.jnull, "Yes"⟩] }).1).answers.map
        fun a => conformsToSchemaType a.answerId answerIdSchemaType) =
      [false] := by
  decide

/-- If no snapshot entry carries the looked-up client id, the answer-id map
holds nothing for it. -/
theorem buildAnswerIdMap_eq_none (xs : List ApiAnswer) (c : String)
    (h : ∀ a : ApiAnswer, a ∈ xs → a.client_id ≠ c) :
    buildAnswerIdMap xs c = none := by
  induction xs with
  | nil => rfl
  | cons a rest ih =>
    have hrest := ih fun b hb => h b (List.mem_cons_of_mem a hb)
    have hha : (a.client_id == c) = false := by
      simp [h a (List.mem_cons_self a rest)]
    simp [buildAnswerIdMap, hrest, hha]

/-- When the snapshot's client ids are pairwise distinct, the answer-id map
holds each entry's server id under its client id. -/
theorem buildAnswerIdMap_mem (xs : List ApiAnswer)
    (hnd : (xs.map ApiAnswer.client_id).Nodup) (a : ApiAnswer) (ha : a ∈ xs) :
    buildAnswerIdMap xs a.client_id = some a.id := by
  induction xs with
  | nil => cases ha
  | cons b rest ih =>
    rw [List.map_cons, List.nodup_cons] at hnd
    rcases List.mem_cons.mp ha with h | h
    · subst h
      have hnone : buildAnswerIdMap rest a.client_id = none := by
        apply buildAnswerIdMap_eq_none
        intro x hx hc
        exact hnd.1 (hc ▸ List.mem_map_of_mem ApiAnswer.client_id hx)
      simp [buildAnswerIdMap, hnone]
    · have hrest := ih hnd.2 h
      simp [buildAnswerIdMap, hrest]

/-- C8 counterexample: the claim as stated fails when the API snapshot holds
two entries with the same `client_id`.  For the snapshot
`answers: [{client_id: "a", id: 7}, {client_id: "a", id: 9}]`, which
contains the entry `{client_id: "a", id: 7}`, the correlation maps the local
answer with `answerId = "a"` to 9, not 7, because the object-building loop
lets a later assignment overwrite an earlier one. -/
theorem C8_counterexample_duplicate_client_ids :
    (⟨"a", 7⟩ : ApiAnswer) ∈
      (PollApiData.mk 1 "url" [⟨"a", 7⟩, ⟨"a", 9⟩]).answers ∧
    answerIdMap (some (PollApiData.mk 1 "url" [⟨"a", 7⟩, ⟨"a", 9⟩])) "a" ≠
      some 7 ∧
    (resultsAnswers
        { defaultPollAttributes with answers := [⟨JsVal.jstr "a", "Yes"⟩] }
        (some (PollApiData.mk 1 "url" [⟨"a", 7⟩, ⟨"a", 9⟩]))).map
      ResultsAnswer.answerIdFromApi = [some 9] := by
  decide

/-- C8 (amended): for every API snapshot whose `client_id`s are pairwise
distinct, the correlation maps each client id occurring in the snapshot to
that entry's numeric server id; an id matching no `client_id` of the
snapshot receives no mapped server id; and every answer in the list passed
to the results view comes from a non-empty local answer, carrying that
answer's id and text and the mapped server id looked up under its
`answerId`. -/
theorem C8_results_correlation (attrs : PollAttributes) (d : PollApiData) :
    ((d.answers.map ApiAnswer.client_id).Nodup →
      ∀ a : ApiAnswer, a ∈ d.answers →
        answerIdMap (some d) a.client_id = some a.id) ∧
    (∀ c : String, (∀ a : ApiAnswer, a ∈ d.answers → a.client_id ≠ c) →
      answerIdMap (some d) c = none) ∧
    (∀ r : ResultsAnswer, r ∈ resultsAnswers attrs (some d) →
      ∃ a : Answer, a ∈ attrs.answers ∧ isAnswerEmpty a = false ∧
        r.answerId = a.answerId ∧ r.text = a.text ∧
        r.answerIdFromApi =
          match a.answerId with
          | JsVal.jstr s => answerIdMap (some d) s
          | _ => none) := by
  refine ⟨?_, ?_, ?_⟩
  · intro hnd a ha
    exact buildAnswerIdMap_mem d.answers hnd a ha
  · intro c hc
    exact buildAnswerIdMap_eq_none d.answers c hc
  · intro r hr
    simp only [resultsAnswers, addApiAnswerIds, List.mem_map,
      List.mem_filter] at hr
    obtain ⟨a, ⟨ha, hp⟩, rfl⟩ := hr
    exact ⟨a, ha, by simpa using hp, rfl, rfl, rfl⟩

/-- C8 witness: the spec's own example snapshot
`answers: [{client_id: "a", id: 7}]` maps the client id "a" to 7, and an
unmatched client id "b" to nothing. -/
theorem C8_witness :
    answerIdMap (some (PollApiData.mk 1 "url" [⟨"a", 7⟩])) "a" = some 7 ∧
    answerIdMap (some (PollApiData.mk 1 "url" [⟨"a", 7⟩])) "b" = none :=
  ⟨(C8_results_correlation defaultPollAttributes
      (PollApiData.mk 1 "url" [⟨"a", 7⟩])).1 (by decide) ⟨"a", 7⟩ (by decide),
    (C8_results_correlation defaultPollAttributes
      (PollApiData.mk 1 "url" [⟨"a", 7⟩])).2.1 "b" (by decide)⟩

end CrowdsignalForms
